import Mathlib

/-!
Shallow embedding of the transaction-preparation and position-accounting
engine of the Uniswap V2 Zapper bot (src/unnamed/part_003): the gas price
resolver, the TTL cache, the price-impact slippage engine and the position
ledger.  JavaScript floats and decimal strings are modeled as exact
rationals, BigInt values as natural numbers or integers, and awaited
external calls (HTTP fetches, RPC calls, file writes) as explicit argument
values of Option / Except type.
-/

namespace Zapper

/-- Gas speed selector: the lowercased value of CONSTANTS.GAS_SPEED.  The
switch in fetchTxOptionsFromEtherscan has cases for safe, standard, fast and
instant, plus a default case taken by any other string. -/
inductive GasSpeed where
  | safe
  | standard
  | fast
  | instant
  | other
deriving DecidableEq

/-- The CONSTANTS fields (lines 44-85) that the engine reads.  Each is
resolved from the environment with a hardcoded fallback (defaultConfig). -/
structure Config where
  SLIPPAGE_BPS : ℤ
  CACHE_DURATION_SECONDS : ℤ
  ENABLE_DYNAMIC_SLIPPAGE : Bool
  MIN_SLIPPAGE_BPS : ℤ
  MAX_SLIPPAGE_BPS : ℤ
  GAS_SPEED : GasSpeed
  GAS_SPEED_MULTIPLIER : ℚ
  PRIORITY_FEE_GWEI : ℚ
  MAX_GAS_PRICE_GWEI : ℚ
  DEFAULT_GAS_PRICE_GWEI : ℚ
deriving DecidableEq

/-- The hardcoded fallback values of CONSTANTS (lines 53-74), used when the
corresponding environment variable is absent. -/
def defaultConfig : Config :=
  { SLIPPAGE_BPS := 2000
    CACHE_DURATION_SECONDS := 10
    ENABLE_DYNAMIC_SLIPPAGE := false
    MIN_SLIPPAGE_BPS := 50
    MAX_SLIPPAGE_BPS := 5000
    GAS_SPEED := GasSpeed.fast
    GAS_SPEED_MULTIPLIER := 1
    PRIORITY_FEE_GWEI := 2
    MAX_GAS_PRICE_GWEI := 200
    DEFAULT_GAS_PRICE_GWEI := 30 }

/-- parseUnits(x.toFixed(9), 'gwei'): a gwei amount is rounded to nine
decimal places and scaled by 10^9 into integer wei, which amounts to
rounding x * 10^9 to the nearest integer.  parseUnits(x.toString(), 'gwei')
on configuration values agrees with this when x has at most nine decimal
places. -/
def toWei (x : ℚ) : ℤ := round (x * 1000000000)

/-- The EIP-1559 fee triple returned by every tier of the resolver
(wei amounts, BigInt in the source). -/
structure GasQuote where
  gasPrice : ℤ
  maxFeePerGas : ℤ
  maxPriorityFeePerGas : ℤ
deriving DecidableEq

/-- fetchTxOptionsFromEtherscan (lines 265-326), given the four numeric
fields of a successful oracle response (SafeGasPrice, ProposeGasPrice,
FastGasPrice, suggestBaseFee).  A fetch rejection, a non-ok HTTP status or
an API status other than 1 throw before this arithmetic runs and are
represented at the fetchTxOptions level. -/
def fetchTxOptionsFromEtherscan (cfg : Config)
    (safeGasPriceGwei proposeGasPriceGwei fastGasPriceGwei baseFeeGwei : ℚ) :
    GasQuote :=
  let selected :=
    match cfg.GAS_SPEED with
    | GasSpeed.safe => safeGasPriceGwei
    | GasSpeed.standard => proposeGasPriceGwei
    | GasSpeed.fast => fastGasPriceGwei
    | GasSpeed.instant => fastGasPriceGwei * (12 / 10)
    | GasSpeed.other => fastGasPriceGwei
  let selectedGasPriceGwei := selected * cfg.GAS_SPEED_MULTIPLIER
  let rawPriorityFeeGwei :=
    max cfg.PRIORITY_FEE_GWEI (selectedGasPriceGwei - baseFeeGwei)
  let cappedMaxFeeGwei := min selectedGasPriceGwei cfg.MAX_GAS_PRICE_GWEI
  let priorityFeeGwei := min rawPriorityFeeGwei cappedMaxFeeGwei
  { gasPrice := toWei cappedMaxFeeGwei
    maxFeePerGas := toWei cappedMaxFeeGwei
    maxPriorityFeePerGas := toWei priorityFeeGwei }

/-- The two fields of provider.getFeeData() that fetchTxOptionsFromRPC
reads; either may be null (none). -/
structure FeeData where
  maxFeePerGas : Option ℤ
  maxPriorityFeePerGas : Option ℤ
deriving DecidableEq

/-- JavaScript truthiness of a nullable BigInt: null and 0n are falsy. -/
def jsTruthy : Option ℤ → Option ℤ
  | none => none
  | some v => if v = 0 then none else some v

/-- fetchTxOptionsFromRPC (lines 328-355), given a successful getFeeData
result.  A falsy feeData.maxFeePerGas throws; a falsy
feeData.maxPriorityFeePerGas falls back to PRIORITY_FEE_GWEI. -/
def fetchTxOptionsFromRPC (cfg : Config) (feeData : FeeData) :
    Except String GasQuote :=
  match jsTruthy feeData.maxFeePerGas with
  | none => Except.error "Could not fetch gas price from RPC"
  | some fee =>
    let maxGasPrice := toWei cfg.MAX_GAS_PRICE_GWEI
    let maxFeePerGas := if fee > maxGasPrice then maxGasPrice else fee
    let p0 := (jsTruthy feeData.maxPriorityFeePerGas).getD (toWei cfg.PRIORITY_FEE_GWEI)
    let maxPriorityFeePerGas := if p0 > maxFeePerGas then maxFeePerGas else p0
    Except.ok
      { gasPrice := maxFeePerGas
        maxFeePerGas := maxFeePerGas
        maxPriorityFeePerGas := maxPriorityFeePerGas }

/-- The static default tier of fetchTxOptions (lines 372-381):
DEFAULT_GAS_PRICE_GWEI as both gas price and max fee, PRIORITY_FEE_GWEI as
priority fee, with no comparison between the two. -/
def defaultTxOptions (cfg : Config) : GasQuote :=
  let defaultGasPrice := toWei cfg.DEFAULT_GAS_PRICE_GWEI
  let defaultPriorityFee := toWei cfg.PRIORITY_FEE_GWEI
  { gasPrice := defaultGasPrice
    maxFeePerGas := defaultGasPrice
    maxPriorityFeePerGas := defaultPriorityFee }

/-- fetchTxOptions (lines 357-382).  The ambient network drives the two
fallible tiers: none for the Etherscan argument stands for any throw inside
fetchTxOptionsFromEtherscan (fetch rejection, HTTP error status, API status
other than 1), none for the RPC argument stands for provider.getFeeData
throwing, while some feeData reaches fetchTxOptionsFromRPC, whose own throw
on a missing maxFeePerGas is also caught by the surrounding try. -/
def fetchTxOptions (cfg : Config)
    (etherscanResp : Option (ℚ × ℚ × ℚ × ℚ))
    (rpcResp : Option FeeData) : GasQuote :=
  match etherscanResp with
  | some (s, p, f, b) => fetchTxOptionsFromEtherscan cfg s p f b
  | none =>
    match rpcResp with
    | some feeData =>
      match fetchTxOptionsFromRPC cfg feeData with
      | Except.ok q => q
      | Except.error _ => defaultTxOptions cfg
    | none => defaultTxOptions cfg

/-- calculatePriceImpact (lines 401-413).  BigInt arithmetic is natural
number arithmetic (the division is a floor division); the Number
conversions and float quotients at the end are modeled as exact
rationals. -/
def calculatePriceImpact (amountIn reserveIn reserveOut : ℕ) : ℚ :=
  if amountIn = 0 ∨ reserveIn = 0 ∨ reserveOut = 0 then 0
  else
    let amountInWithFee := amountIn * 997
    let numerator := amountInWithFee * reserveOut
    let denominator := reserveIn * 1000 + amountInWithFee
    let amountOut := numerator / denominator
    let priceBefore : ℚ := (reserveOut : ℚ) / (reserveIn : ℚ)
    let priceAfter : ℚ :=
      ((reserveOut : ℚ) - (amountOut : ℚ)) / ((reserveIn : ℚ) + (amountIn : ℚ))
    |(priceAfter - priceBefore) / priceBefore| * 100

/-- calculateDynamicSlippage (lines 415-437).  The 0.5 literal is the exact
rational 1/2; Math.ceil is the integer ceiling. -/
def calculateDynamicSlippage (cfg : Config) (reserveIn reserveOut amountIn : ℕ) : ℤ :=
  if !cfg.ENABLE_DYNAMIC_SLIPPAGE then cfg.SLIPPAGE_BPS
  else
    let priceImpact := calculatePriceImpact amountIn reserveIn reserveOut
    if priceImpact < 1 / 2 then cfg.MIN_SLIPPAGE_BPS
    else if priceImpact < 2 then 100
    else if priceImpact < 5 then 200
    else if priceImpact < 10 then 500
    else min cfg.MAX_SLIPPAGE_BPS (Int.ceil (priceImpact * 100))

/-- calculateAmountOut (lines 439-445): the constant-product-with-fee
projected output, in BigInt (floor) arithmetic. -/
def calculateAmountOut (amountIn reserveIn reserveOut : ℕ) : ℕ :=
  if amountIn = 0 then 0
  else
    let amountInWithFee := amountIn * 997
    let numerator := amountInWithFee * reserveOut
    let denominator := reserveIn * 1000 + amountInWithFee
    numerator / denominator

/-- One entry of the apiCache map (lines 162-185): the fetched data and the
Date.now() millisecond timestamp recorded when it was stored. -/
structure CacheEntry (α : Type) where
  data : α
  timestamp : ℤ
deriving DecidableEq

/-- The apiCache map, as a partial function from keys to entries. -/
def Cache (α : Type) : Type := String → Option (CacheEntry α)

/-- apiCache.set(key, entry). -/
def cacheSet {α : Type} (cache : Cache α) (key : String) (entry : CacheEntry α) :
    Cache α :=
  fun k => if k = key then some entry else cache k

/-- getCachedData (lines 164-185).  now is Date.now(); the single awaited
fetcherFunction call is given as an Except outcome.  The result pairs the
function's own outcome (a value, or the propagated fetcher error) with the
apiCache state after the call. -/
def getCachedData {α : Type} (cfg : Config) (cache : Cache α) (key : String)
    (now : ℤ) (fetcher : Except String α) : Except String α × Cache α :=
  match cache key with
  | some cachedItem =>
    if now - cachedItem.timestamp < cfg.CACHE_DURATION_SECONDS * 1000 then
      (Except.ok cachedItem.data, cache)
    else
      match fetcher with
      | Except.ok data => (Except.ok data, cacheSet cache key ⟨data, now⟩)
      | Except.error _ => (Except.ok cachedItem.data, cache)
  | none =>
    match fetcher with
    | Except.ok data => (Except.ok data, cacheSet cache key ⟨data, now⟩)
    | Except.error e => (Except.error e, cache)

/-- A burst of getCachedData calls for one key whose fetchers all fail:
each list element is the call time paired with the fetcher's error
message.  Returns the per-call outcomes and the final cache state. -/
def runFailingCalls {α : Type} (cfg : Config) (key : String) (cache : Cache α) :
    List (ℤ × String) → List (Except String α) × Cache α
  | [] => ([], cache)
  | (t, e) :: rest =>
    ((getCachedData cfg cache key t (Except.error e)).1 ::
        (runFailingCalls cfg key (getCachedData cfg cache key t (Except.error e)).2 rest).1,
      (runFailingCalls cfg key (getCachedData cfg cache key t (Except.error e)).2 rest).2)

/-- One record of positions.json (loadPositions / savePositions):
initialEthValue and initialMarketCap are decimal strings in the source,
parsed with parseFloat at every use, modeled as exact rationals; timestamp
is Date.now(). -/
structure Position where
  tokenAddress : String
  pairAddress : String
  initialEthValue : ℚ
  initialMarketCap : ℚ
  timestamp : ℤ
deriving DecidableEq

/-- savePositions (lines 200-207).  The durable fs.writeFile outcome is
given as an Except value; the catch block only logs, so the function
resolves normally whether or not the write succeeded. -/
def savePositions (writeOutcome : Except String Unit) : Except String Unit :=
  match writeOutcome with
  | Except.ok _ => Except.ok ()
  | Except.error _ => Except.ok ()

/-- updateAndSavePosition (lines 647-672), restricted to its ledger
arithmetic: loadPositions supplies positions, getCachedPairInfo supplies
pairAddress and marketCap, Date.now() supplies now, and the trailing
savePositions call is modeled separately.  getAddress checksumming is an
abstract normalization norm over address strings. -/
def updateAndSavePosition (norm : String → String) (positions : List Position)
    (tokenAddress pairAddress : String) (ethAmount marketCap : ℚ) (now : ℤ) :
    List Position :=
  match positions.findIdx? (fun p => norm p.tokenAddress == norm tokenAddress) with
  | some existingIndex =>
    match positions.get? existingIndex with
    | some pos =>
      let oldEth := pos.initialEthValue
      let newEth := ethAmount
      let oldMCap := pos.initialMarketCap
      let newMCap := marketCap
      let totalEth := oldEth + newEth
      positions.set existingIndex
        { pos with
          initialMarketCap := (oldMCap * oldEth + newMCap * newEth) / totalEth
          initialEthValue := totalEth
          timestamp := now }
    | none => positions
  | none =>
    positions ++
      [{ tokenAddress := tokenAddress
         pairAddress := pairAddress
         initialEthValue := ethAmount
         initialMarketCap := marketCap
         timestamp := now }]

/-- The ledger update inside the execute_zapout callback handler (lines
905-910): reload the positions, splice out the entry at the session's
positionIndex only when the zap-out percentage is exactly 100, and save.
The approval, transaction submission and rendering around it are
external. -/
def executeZapOutLedger (positions : List Position) (positionIndex : ℕ)
    (percentage : ℕ) : List Position :=
  if percentage = 100 then positions.eraseIdx positionIndex else positions

/-!  Theorems. -/

/-- C1: The Gas Price Resolver (fetchTxOptions) never fails: it is a total
function into GasQuote.  If the primary Etherscan tier succeeds its quote is
returned; if it throws, the node-RPC tier is attempted (its result, or on
its own throw the static default, is returned); if both tiers throw, the
hardcoded static default quote built from DEFAULT_GAS_PRICE_GWEI and the
minimal priority fee PRIORITY_FEE_GWEI is returned. -/
theorem fetchTxOptions_tiered_fallback (cfg : Config) (s p f b : ℚ)
    (rpcResp : Option FeeData) (feeData : FeeData) :
    fetchTxOptions cfg (some (s, p, f, b)) rpcResp =
      fetchTxOptionsFromEtherscan cfg s p f b ∧
    fetchTxOptions cfg none (some feeData) =
      (match fetchTxOptionsFromRPC cfg feeData with
       | Except.ok q => q
       | Except.error _ => defaultTxOptions cfg) ∧
    fetchTxOptions cfg none none = defaultTxOptions cfg :=
  ⟨rfl, rfl, rfl⟩

/-- C3 (code bug): savePositions swallows a failing durable write.  For
every write error, the catch block only logs and the call resolves
normally, so the failure is never surfaced to the caller, contrary to the
spec's requirement that persistence failures be surfaced. -/
theorem savePositions_swallows_write_failure (e : String) :
    savePositions (Except.error e) = Except.ok () := rfl

/-- C8 counterexample: calculateAmountOut does not return 0 on every
zero-reserve input: with amountIn 1, reserveIn 0, reserveOut 5 the formula
returns the whole output reserve 5 (997 * 1 * 5 / (0 + 997)), not 0. -/
theorem calculateAmountOut_zero_reserveIn_counterexample :
    ¬ (calculateAmountOut 1 0 5 = 0) := by decide

/-- C8 (amended): the slippage engine's pure functions are total Lean
functions (they cannot fail), calculatePriceImpact returns 0 whenever
amountIn, reserveIn or reserveOut is zero, and calculateAmountOut returns 0
whenever amountIn or reserveOut is zero; but for reserveIn zero and
amountIn positive, calculateAmountOut returns reserveOut rather than 0. -/
theorem degenerate_input_conventions (a rIn rOut : ℕ) :
    calculatePriceImpact 0 rIn rOut = 0 ∧
    calculatePriceImpact a 0 rOut = 0 ∧
    calculatePriceImpact a rIn 0 = 0 ∧
    calculateAmountOut 0 rIn rOut = 0 ∧
    calculateAmountOut a rIn 0 = 0 := by
  refine ⟨?_, ?_, ?_, ?_, ?_⟩ <;>
    simp [calculatePriceImpact, calculateAmountOut]

/-- C10 counterexample: with a zero output reserve the projected output is
not strictly below the output reserve: calculateAmountOut 1 1 0 = 0, which
is not less than reserveOut = 0. -/
theorem calculateAmountOut_zero_reserveOut_counterexample :
    ¬ (calculateAmountOut 1 1 0 < 0) := by decide

/-- C10 (amended): for every positive amountIn, positive reserveIn and
positive reserveOut, the constant-product-with-fee projected output is
strictly below the output reserve, so a projected swap can never drain or
exceed the pool's output-side reserve. -/
theorem calculateAmountOut_lt_reserveOut (a rIn rOut : ℕ)
    (ha : 0 < a) (hIn : 0 < rIn) (hOut : 0 < rOut) :
    calculateAmountOut a rIn rOut < rOut := by
  unfold calculateAmountOut
  rw [if_neg (Nat.pos_iff_ne_zero.mp ha)]
  have hd : 0 < rIn * 1000 + a * 997 := by omega
  rw [Nat.div_lt_iff_lt_mul hd]
  nlinarith

/-- C10 witness: the bound at amountIn 1, reserveIn 1, reserveOut 1. -/
theorem calculateAmountOut_lt_reserveOut_witness :
    (0 < 1 ∧ 0 < 1 ∧ 0 < 1) ∧ calculateAmountOut 1 1 1 < 1 :=
  ⟨⟨Nat.one_pos, Nat.one_pos, Nat.one_pos⟩,
    calculateAmountOut_lt_reserveOut 1 1 1 Nat.one_pos Nat.one_pos Nat.one_pos⟩

/-- The wei conversion is monotone: rounding to nine decimals and scaling
preserves order. -/
theorem toWei_mono {a b : ℚ} (h : a ≤ b) : toWei a ≤ toWei b := by
  unfold toWei
  rw [round_eq, round_eq]
  exact Int.floor_mono (by linarith)

/-- On integral gwei amounts the wei conversion is exact scaling. -/
theorem toWei_int (n : ℤ) : toWei (n : ℚ) = n * 1000000000 := by
  unfold toWei
  rw [show ((n : ℚ) * 1000000000) = ((n * 1000000000 : ℤ) : ℚ) by push_cast; ring,
    round_intCast]

/-- A configuration whose configured minimal priority fee exceeds the
static default gas price. -/
def cfgPriorityAboveDefault : Config :=
  { defaultConfig with PRIORITY_FEE_GWEI := 50, DEFAULT_GAS_PRICE_GWEI := 30 }

/-- C2 counterexample: on the static default tier no clamping happens, so a
configuration with PRIORITY_FEE_GWEI 50 and DEFAULT_GAS_PRICE_GWEI 30
yields, when both fallible tiers throw, a quote whose maxPriorityFeePerGas
(50 gwei) exceeds its maxFeePerGas (30 gwei). -/
theorem fetchTxOptions_priority_gt_maxFee_counterexample :
    ¬ ((fetchTxOptions cfgPriorityAboveDefault none none).maxPriorityFeePerGas ≤
       (fetchTxOptions cfgPriorityAboveDefault none none).maxFeePerGas) := by
  show ¬ (toWei 50 ≤ toWei 30)
  rw [show (50 : ℚ) = ((50 : ℤ) : ℚ) by norm_num,
    show (30 : ℚ) = ((30 : ℤ) : ℚ) by norm_num, toWei_int, toWei_int]
  decide

/-- C2 (amended): provided the configured minimal priority fee does not
exceed the configured static default gas price (the hardcoded defaults are
2 and 30 gwei), every quote fetchTxOptions returns on every reachable path
(Etherscan tier, RPC fallback tier, static default tier, including after
capping at MAX_GAS_PRICE_GWEI) satisfies maxPriorityFeePerGas ≤
maxFeePerGas.  The Etherscan and RPC tiers satisfy the invariant for every
configuration; only the static tier needs the hypothesis. -/
theorem fetchTxOptionsFromEtherscan_priority_le_maxFee (cfg : Config)
    (s p f b : ℚ) :
    (fetchTxOptionsFromEtherscan cfg s p f b).maxPriorityFeePerGas ≤
      (fetchTxOptionsFromEtherscan cfg s p f b).maxFeePerGas := by
  unfold fetchTxOptionsFromEtherscan
  exact toWei_mono (min_le_right _ _)

theorem fetchTxOptionsFromRPC_priority_le_maxFee (cfg : Config)
    (feeData : FeeData) (q : GasQuote)
    (h : fetchTxOptionsFromRPC cfg feeData = Except.ok q) :
    q.maxPriorityFeePerGas ≤ q.maxFeePerGas := by
  unfold fetchTxOptionsFromRPC at h
  rcases hfd : jsTruthy feeData.maxFeePerGas with _ | fee <;> rw [hfd] at h
  · exact absurd h (by simp)
  · simp only [Except.ok.injEq] at h
    subst h
    dsimp only
    split_ifs <;> omega

theorem fetchTxOptions_priority_le_maxFee (cfg : Config)
    (hp : cfg.PRIORITY_FEE_GWEI ≤ cfg.DEFAULT_GAS_PRICE_GWEI)
    (ethResp : Option (ℚ × ℚ × ℚ × ℚ)) (rpcResp : Option FeeData) :
    (fetchTxOptions cfg ethResp rpcResp).maxPriorityFeePerGas ≤
      (fetchTxOptions cfg ethResp rpcResp).maxFeePerGas := by
  have hdefault : (defaultTxOptions cfg).maxPriorityFeePerGas ≤
      (defaultTxOptions cfg).maxFeePerGas := toWei_mono hp
  rcases ethResp with _ | ⟨s, p, f, b⟩
  · rcases rpcResp with _ | feeData
    · exact hdefault
    · cases hr : fetchTxOptionsFromRPC cfg feeData with
      | error e => simpa [fetchTxOptions, hr] using hdefault
      | ok q =>
        simpa [fetchTxOptions, hr] using
          fetchTxOptionsFromRPC_priority_le_maxFee cfg feeData q hr
  · exact fetchTxOptionsFromEtherscan_priority_le_maxFee cfg s p f b

/-- C2 witness: the invariant at the default configuration with both
fallible tiers throwing. -/
theorem fetchTxOptions_priority_le_maxFee_witness :
    defaultConfig.PRIORITY_FEE_GWEI ≤ defaultConfig.DEFAULT_GAS_PRICE_GWEI ∧
    (fetchTxOptions defaultConfig none none).maxPriorityFeePerGas ≤
      (fetchTxOptions defaultConfig none none).maxFeePerGas :=
  ⟨by decide, fetchTxOptions_priority_le_maxFee defaultConfig (by decide) none none⟩

/-- A configuration with dynamic slippage enabled and a minimum above the
fixed 100 bps band. -/
def cfgHighMin : Config :=
  { defaultConfig with ENABLE_DYNAMIC_SLIPPAGE := true, MIN_SLIPPAGE_BPS := 3000 }

/-- C4 counterexample: with dynamic slippage enabled and MIN_SLIPPAGE_BPS
configured to 3000, a trade with price impact of about 0.99 percent falls
in the fixed 100 bps band, so the returned tolerance 100 is below the
configured minimum: the claimed lower bound does not hold for every
configuration. -/
theorem calculateDynamicSlippage_below_min_counterexample :
    cfgHighMin.ENABLE_DYNAMIC_SLIPPAGE = true ∧
    ¬ (cfgHighMin.MIN_SLIPPAGE_BPS ≤
        calculateDynamicSlippage cfgHighMin 1000000 1000000 5000) := by
  constructor
  · rfl
  · have h : calculateDynamicSlippage cfgHighMin 1000000 1000000 5000 = 100 := by
      norm_num [calculateDynamicSlippage, calculatePriceImpact, cfgHighMin,
        defaultConfig, abs_of_nonneg, abs_of_nonpos]
    rw [h]
    norm_num [cfgHighMin, defaultConfig]

/-- C4 (amended): whenever the configured band covers the fixed steps of
the impact table (MIN_SLIPPAGE_BPS ≤ 100 and 500 ≤ MAX_SLIPPAGE_BPS, as
the hardcoded defaults 50 and 5000 do), calculateDynamicSlippage stays
within [MIN_SLIPPAGE_BPS, MAX_SLIPPAGE_BPS] for every amountIn and every
reserves when dynamic slippage is enabled, and returns the configured
static default SLIPPAGE_BPS when it is disabled. -/
theorem calculateDynamicSlippage_bounds (cfg : Config) (rIn rOut a : ℕ)
    (hmin : cfg.MIN_SLIPPAGE_BPS ≤ 100) (hmax : 500 ≤ cfg.MAX_SLIPPAGE_BPS) :
    (cfg.ENABLE_DYNAMIC_SLIPPAGE = true →
      cfg.MIN_SLIPPAGE_BPS ≤ calculateDynamicSlippage cfg rIn rOut a ∧
      calculateDynamicSlippage cfg rIn rOut a ≤ cfg.MAX_SLIPPAGE_BPS) ∧
    (cfg.ENABLE_DYNAMIC_SLIPPAGE = false →
      calculateDynamicSlippage cfg rIn rOut a = cfg.SLIPPAGE_BPS) := by
  constructor
  · intro hE
    have hr : calculateDynamicSlippage cfg rIn rOut a =
        (if calculatePriceImpact a rIn rOut < 1 / 2 then cfg.MIN_SLIPPAGE_BPS
         else if calculatePriceImpact a rIn rOut < 2 then 100
         else if calculatePriceImpact a rIn rOut < 5 then 200
         else if calculatePriceImpact a rIn rOut < 10 then 500
         else min cfg.MAX_SLIPPAGE_BPS (Int.ceil (calculatePriceImpact a rIn rOut * 100))) := by
      unfold calculateDynamicSlippage
      rw [hE]
      rfl
    rw [hr]
    split_ifs with h1 h2 h3 h4
    · exact ⟨le_refl _, by linarith⟩
    · exact ⟨hmin, by linarith⟩
    · exact ⟨by linarith, by linarith⟩
    · exact ⟨by linarith, hmax⟩
    · have h10 : (10 : ℚ) ≤ calculatePriceImpact a rIn rOut := le_of_not_lt h4
      have hc : ((1000 : ℤ) : ℚ) ≤ calculatePriceImpact a rIn rOut * 100 := by
        push_cast
        linarith
      have hceil : (1000 : ℤ) ≤ Int.ceil (calculatePriceImpact a rIn rOut * 100) := by
        have h2 := Int.ceil_mono hc
        rwa [Int.ceil_intCast] at h2
      exact ⟨le_min (by linarith) (by linarith), min_le_left _ _⟩
  · intro hE
    unfold calculateDynamicSlippage
    rw [hE]
    rfl

/-- A configuration identical to the defaults but with dynamic slippage
enabled. -/
def cfgDynamic : Config := { defaultConfig with ENABLE_DYNAMIC_SLIPPAGE := true }

/-- C4 witness: the bounds at the default band with dynamic slippage
enabled, and the static default with it disabled. -/
theorem calculateDynamicSlippage_bounds_witness :
    (cfgDynamic.MIN_SLIPPAGE_BPS ≤ 100 ∧ 500 ≤ cfgDynamic.MAX_SLIPPAGE_BPS ∧
      cfgDynamic.MIN_SLIPPAGE_BPS ≤ calculateDynamicSlippage cfgDynamic 1000000 1000000 5000 ∧
      calculateDynamicSlippage cfgDynamic 1000000 1000000 5000 ≤ cfgDynamic.MAX_SLIPPAGE_BPS) ∧
    calculateDynamicSlippage defaultConfig 1 1 1 = defaultConfig.SLIPPAGE_BPS := by
  have hmin : cfgDynamic.MIN_SLIPPAGE_BPS ≤ 100 := by norm_num [cfgDynamic, defaultConfig]
  have hmax : (500 : ℤ) ≤ cfgDynamic.MAX_SLIPPAGE_BPS := by norm_num [cfgDynamic, defaultConfig]
  refine ⟨⟨hmin, hmax, ?_, ?_⟩, ?_⟩
  · exact ((calculateDynamicSlippage_bounds cfgDynamic 1000000 1000000 5000 hmin hmax).1 rfl).1
  · exact ((calculateDynamicSlippage_bounds cfgDynamic 1000000 1000000 5000 hmin hmax).1 rfl).2
  · exact (calculateDynamicSlippage_bounds defaultConfig 1 1 1 (by norm_num [defaultConfig])
      (by norm_num [defaultConfig])).2 rfl

/-- Cross-multiplied comparison of floor divisions. -/
theorem div_le_div_cross {n1 d1 n2 d2 : ℕ} (h : n1 * d2 ≤ n2 * d1)
    (hd1 : 0 < d1) (hd2 : 0 < d2) : n1 / d1 ≤ n2 / d2 := by
  rw [Nat.le_div_iff_mul_le hd2]
  have h1 : n1 / d1 * d2 * d1 ≤ n1 * d2 := by
    calc n1 / d1 * d2 * d1 = n1 / d1 * d1 * d2 := by ring
      _ ≤ n1 * d2 := Nat.mul_le_mul_right d2 (Nat.div_mul_le_self n1 d1)
  have h2 : n1 / d1 * d2 ≤ n1 * d2 / d1 := (Nat.le_div_iff_mul_le hd1).mpr h1
  have h3 : n1 * d2 / d1 ≤ n2 * d1 / d1 := Nat.div_le_div_right h
  have h4 : n2 * d1 / d1 = n2 := by
    rw [Nat.mul_comm]
    exact Nat.mul_div_cancel_left n2 hd1
  exact h2.trans (h3.trans (le_of_eq h4))

/-- C9: for fixed positive reserves calculateAmountOut is monotonically
nondecreasing in amountIn, and it returns 0 at amountIn 0.  (The strict
reading of monotonically increasing fails: floor division lets two nearby
inputs project the same output.) -/
theorem calculateAmountOut_monotone (rIn rOut a1 a2 : ℕ)
    (hIn : 0 < rIn) (hOut : 0 < rOut) (h : a1 ≤ a2) :
    calculateAmountOut a1 rIn rOut ≤ calculateAmountOut a2 rIn rOut ∧
    calculateAmountOut 0 rIn rOut = 0 := by
  refine ⟨?_, by simp [calculateAmountOut]⟩
  unfold calculateAmountOut
  by_cases h1 : a1 = 0
  · simp [h1]
  · have h2 : a2 ≠ 0 := by omega
    rw [if_neg h1, if_neg h2]
    apply div_le_div_cross
    · have e1 : a1 * 997 * rOut * (rIn * 1000 + a2 * 997) =
          a1 * rOut * rIn * 997000 + a1 * a2 * rOut * 994009 := by ring
      have e2 : a2 * 997 * rOut * (rIn * 1000 + a1 * 997) =
          a2 * rOut * rIn * 997000 + a1 * a2 * rOut * 994009 := by ring
      rw [e1, e2]
      exact Nat.add_le_add_right
        (Nat.mul_le_mul_right 997000 (Nat.mul_le_mul_right rIn (Nat.mul_le_mul_right rOut h))) _
    · omega
    · omega

/-- C9 witness: monotonicity at amountIn 1 against 2 over reserves 5 and
9. -/
theorem calculateAmountOut_monotone_witness :
    (0 < 5 ∧ 0 < 9 ∧ 1 ≤ 2) ∧
    calculateAmountOut 1 5 9 ≤ calculateAmountOut 2 5 9 ∧
    calculateAmountOut 0 5 9 = 0 :=
  ⟨⟨by decide, by decide, by decide⟩,
    calculateAmountOut_monotone 5 9 1 2 (by decide) (by decide) (by decide)⟩

/-- C7: with the at-most-one-Position-per-token invariant and the session
index pointing at the token's Position, a 100 percent zap-out (the
percentage form of exitFractionBps 10000) removes that token's Position
from the ledger entirely, and any other percentage leaves the ledger -
in particular every cost-basis field of every Position - numerically
unchanged. -/
theorem executeZapOutLedger_spec (ps : List Position) (i : ℕ) (p : Position)
    (hp : ps.get? i = some p)
    (huniq : ∀ j q, ps.get? j = some q → q.tokenAddress = p.tokenAddress → j = i) :
    (∀ q ∈ executeZapOutLedger ps i 100, q.tokenAddress ≠ p.tokenAddress) ∧
    (∀ pct, pct ≠ 100 → executeZapOutLedger ps i pct = ps) := by
  constructor
  · intro q hq hqtok
    unfold executeZapOutLedger at hq
    rw [if_pos rfl] at hq
    rw [List.mem_eraseIdx_iff_getElem?] at hq
    obtain ⟨j, hji, hj⟩ := hq
    exact hji (huniq j q (by simpa [List.get?_eq_getElem?] using hj) hqtok)
  · intro pct hpct
    unfold executeZapOutLedger
    rw [if_neg hpct]

/-- C7 witness: a fresh single-position ledger; the 100 percent exit
leaves zero Positions, a 50 percent exit leaves the ledger unchanged. -/
theorem executeZapOutLedger_spec_witness :
    (([⟨"a", "p", 1, 100, 0⟩] : List Position).get? 0 = some ⟨"a", "p", 1, 100, 0⟩) ∧
    executeZapOutLedger [⟨"a", "p", 1, 100, 0⟩] 0 100 = [] ∧
    executeZapOutLedger [⟨"a", "p", 1, 100, 0⟩] 0 50 = [⟨"a", "p", 1, 100, 0⟩] := by
  refine ⟨rfl, rfl, ?_⟩
  exact (executeZapOutLedger_spec [⟨"a", "p", 1, 100, 0⟩] 0 ⟨"a", "p", 1, 100, 0⟩ rfl
    (fun j q hj _ => by
      rcases j with _ | j
      · rfl
      · simp at hj)).2 50 (by decide)

/-- C6: updateAndSavePosition merges a repeat entry for an already-present
token by value-weighted average - the merged initialMarketCap is
(oldMarketCap * oldBase + newMarketCap * newBase) / (oldBase + newBase)
with initialEthValue the sum of the bases - and appends a fresh Position
for an absent token with the given base amount and market cap. -/
theorem updateAndSavePosition_spec (norm : String → String) (ps : List Position)
    (tok pair : String) (eth mcap : ℚ) (now : ℤ) :
    (ps.findIdx? (fun p => norm p.tokenAddress == norm tok) = none →
      updateAndSavePosition norm ps tok pair eth mcap now =
        ps ++ [⟨tok, pair, eth, mcap, now⟩]) ∧
    (∀ i p, ps.findIdx? (fun p => norm p.tokenAddress == norm tok) = some i →
      ps.get? i = some p →
      updateAndSavePosition norm ps tok pair eth mcap now =
        ps.set i
          ⟨p.tokenAddress, p.pairAddress,
            p.initialEthValue + eth,
            (p.initialMarketCap * p.initialEthValue + mcap * eth) /
              (p.initialEthValue + eth),
            now⟩) := by
  constructor
  · intro h
    simp only [updateAndSavePosition, h]
  · intro i p h1 h2
    simp only [updateAndSavePosition, h1, h2]

/-- C6 witness: entering (tokenA, 1 ETH, mcap 100) then (tokenA, 1 ETH,
mcap 200) yields exactly one Position with initialEthValue 2 and
initialMarketCap 150, and a first entry for an absent token appends a new
Position. -/
theorem updateAndSavePosition_spec_witness :
    (([⟨"a", "p", 1, 100, 0⟩] : List Position).findIdx?
        (fun p => id p.tokenAddress == id "a") = some 0) ∧
    updateAndSavePosition id [⟨"a", "p", 1, 100, 0⟩] "a" "p" 1 200 5 =
      [⟨"a", "p", 2, 150, 5⟩] ∧
    updateAndSavePosition id [] "b" "q" 1 100 7 = [⟨"b", "q", 1, 100, 7⟩] := by
  refine ⟨by decide, ?_, ?_⟩
  · have h := (updateAndSavePosition_spec id [⟨"a", "p", 1, 100, 0⟩] "a" "p" 1 200 5).2
      0 ⟨"a", "p", 1, 100, 0⟩ (by decide) rfl
    rw [h]
    norm_num [List.set, Position.mk.injEq]
  · exact (updateAndSavePosition_spec id [] "b" "q" 1 100 7).1 rfl

/-- Serving from an existing entry: a failing refetch with a prior entry
(fresh or stale) returns that entry's value and leaves the cache
unchanged. -/
theorem getCachedData_error_stale {α : Type} (cfg : Config) (cache : Cache α)
    (key : String) (now : ℤ) (e : String) (item : CacheEntry α)
    (h : cache key = some item) :
    getCachedData cfg cache key now (Except.error e) = (Except.ok item.data, cache) := by
  by_cases hf : now - item.timestamp < cfg.CACHE_DURATION_SECONDS * 1000 <;>
    simp [getCachedData, h, hf]

/-- With an entry present, a burst of failing calls serves that entry's
value every time and never touches the cache. -/
theorem runFailingCalls_stale_serve {α : Type} (cfg : Config) (key : String)
    (item : CacheEntry α) :
    ∀ (calls : List (ℤ × String)) (cache : Cache α), cache key = some item →
      runFailingCalls cfg key cache calls =
        (calls.map (fun _ => Except.ok item.data), cache) := by
  intro calls
  induction calls with
  | nil =>
    intro cache h
    rfl
  | cons c rest ih =>
    intro cache h
    obtain ⟨t, e⟩ := c
    have hg := getCachedData_error_stale cfg cache key t e item h
    simp [runFailingCalls, hg, ih cache h]

/-- C5: getCachedData returns a fresh entry's value without consulting the
fetcher; otherwise it invokes the fetcher, storing and returning a
successful result; on fetcher failure it serves the now-stale prior entry
if one exists and propagates the failure when none does; and after one
successful fetch for a previously absent key, every subsequent call whose
fetcher fails still yields the originally fetched value. -/
theorem getCachedData_spec {α : Type} (cfg : Config) (cache : Cache α)
    (key : String) (now : ℤ) (v : α) (e : String) (item : CacheEntry α) :
    (cache key = some item →
      now - item.timestamp < cfg.CACHE_DURATION_SECONDS * 1000 →
      ∀ fetcher, getCachedData cfg cache key now fetcher = (Except.ok item.data, cache)) ∧
    ((cache key = none ∨
        (cache key = some item ∧
          ¬ now - item.timestamp < cfg.CACHE_DURATION_SECONDS * 1000)) →
      getCachedData cfg cache key now (Except.ok v) =
        (Except.ok v, cacheSet cache key ⟨v, now⟩)) ∧
    (cache key = some item →
      getCachedData cfg cache key now (Except.error e) = (Except.ok item.data, cache)) ∧
    (cache key = none →
      getCachedData cfg cache key now (Except.error e) = (Except.error e, cache)) ∧
    (cache key = none →
      ∀ calls : List (ℤ × String),
        runFailingCalls cfg key (getCachedData cfg cache key now (Except.ok v)).2 calls =
          (calls.map (fun _ => Except.ok v),
            (getCachedData cfg cache key now (Except.ok v)).2)) := by
  refine ⟨?_, ?_, ?_, ?_, ?_⟩
  · intro h hf fetcher
    simp [getCachedData, h, hf]
  · rintro (h | ⟨h, hs⟩)
    · simp [getCachedData, h]
    · simp [getCachedData, h, hs]
  · intro h
    exact getCachedData_error_stale cfg cache key now e item h
  · intro h
    simp [getCachedData, h]
  · intro h calls
    have h2 : (getCachedData cfg cache key now (Except.ok v)).2 =
        cacheSet cache key ⟨v, now⟩ := by
      simp [getCachedData, h]
    rw [h2]
    exact runFailingCalls_stale_serve cfg key ⟨v, now⟩ calls _ (by simp [cacheSet])

/-- A one-entry cache for the witness. -/
def demoCache : Cache ℕ := fun k => if k = "txOptions" then some ⟨7, 0⟩ else none

/-- C5 witness: a fresh hit serves the cached value even against a failing
fetcher; a missing key propagates the failure; after one success every
later failing call still yields the original value. -/
theorem getCachedData_spec_witness :
    demoCache "txOptions" = some (⟨7, 0⟩ : CacheEntry ℕ) ∧
    (0 : ℤ) - (0 : ℤ) < defaultConfig.CACHE_DURATION_SECONDS * 1000 ∧
    getCachedData defaultConfig demoCache "txOptions" 0 (Except.error "down") =
      (Except.ok 7, demoCache) ∧
    getCachedData defaultConfig demoCache "ethPrice" 0 (Except.error "down") =
      (Except.error "down", demoCache) ∧
    runFailingCalls defaultConfig "ethPrice"
        (getCachedData defaultConfig demoCache "ethPrice" 0 (Except.ok 7)).2
        [(99999, "down"), (199999, "down")] =
      ([Except.ok 7, Except.ok 7],
        (getCachedData defaultConfig demoCache "ethPrice" 0 (Except.ok 7)).2) := by
  have hsome : demoCache "txOptions" = some (⟨7, 0⟩ : CacheEntry ℕ) := by simp [demoCache]
  have hnone : demoCache "ethPrice" = none := by simp [demoCache]
  refine ⟨hsome, by norm_num [defaultConfig], ?_, ?_, ?_⟩
  · exact (getCachedData_spec defaultConfig demoCache "txOptions" 0 7 "down" ⟨7, 0⟩).1
      hsome (by norm_num [defaultConfig]) (Except.error "down")
  · exact (getCachedData_spec defaultConfig demoCache "ethPrice" 0 7 "down" ⟨7, 0⟩).2.2.2.1 hnone
  · have h := (getCachedData_spec defaultConfig demoCache "ethPrice" 0 7 "down" ⟨7, 0⟩).2.2.2.2
      hnone [(99999, "down"), (199999, "down")]
    simpa using h

end Zapper
